import Mathlib

/-!
Shallow embedding of the portfolio site content-composition logic
(src/App.tsx Portfolio component, src/MicrosoftProjects.tsx,
src/MicrosoftTimeline.tsx): domain records, the category-to-icon
classifier, the skill grouping, and the per-page view assembly,
together with theorems about grouping, dividers, ordering, routing
and determinism.
-/

namespace Site

/-- The closed skill category union type from App.tsx:
category is Frontend, Backend, Cloud or Data. -/
inductive Category
  | frontend
  | backend
  | cloud
  | data
deriving DecidableEq, Repr

/-- The display string of a category, as it appears as an object key
in the skillCategories literal of App.tsx. -/
def Category.label : Category → String
  | .frontend => "Frontend"
  | .backend => "Backend"
  | .cloud => "Cloud"
  | .data => "Data"

/-- Skill record from App.tsx. -/
structure Skill where
  name : String
  category : Category
deriving DecidableEq, Repr

/-- Experience record from App.tsx. -/
structure Experience where
  title : String
  company : String
  period : String
  location : String
  description : String
  achievements : List String
  technologies : List String
deriving DecidableEq, Repr

/-- The icon components the pages import from the icon library; the
classifier and the metric tiles pick one of these. -/
inductive IconTag
  | web
  | code
  | cloudIcon
  | storage
  | people
  | swapHoriz
  | speed
  | attachMoney
  | trendingDown
deriving DecidableEq, Repr

/-- getCategoryIcon from App.tsx: a switch over the category string
with cases Frontend, Backend, Cloud, Data and an implicit default
branch returning the Code icon. -/
def getCategoryIcon (category : String) : IconTag :=
  if category = "Frontend" then IconTag.web
  else if category = "Backend" then IconTag.code
  else if category = "Cloud" then IconTag.cloudIcon
  else if category = "Data" then IconTag.storage
  else IconTag.code

/-- The four category keys in the order they are declared in the
skillCategories object literal of App.tsx. -/
def declaredCategories : List String :=
  ["Frontend", "Backend", "Cloud", "Data"]

/-- skillCategories from App.tsx: an object literal with the four
fixed keys Frontend, Backend, Cloud, Data, each bound to the
filter of the input skills whose category equals that key.
Object.entries preserves the literal key order, so the object is a
four-entry association list. -/
def skillCategories (skills : List Skill) : List (String × List Skill) :=
  [("Frontend", skills.filter (fun s => s.category = Category.frontend)),
   ("Backend", skills.filter (fun s => s.category = Category.backend)),
   ("Cloud", skills.filter (fun s => s.category = Category.cloud)),
   ("Data", skills.filter (fun s => s.category = Category.data))]

/-- Impact metric record from MicrosoftProjects.tsx and
MicrosoftTimeline.tsx: a metric name, a free-form value string and an
icon element. -/
structure ImpactMetric where
  metric : String
  value : String
  icon : IconTag
deriving DecidableEq, Repr

/-- Project record from MicrosoftProjects.tsx. -/
structure Project where
  title : String
  description : String
  impact : List ImpactMetric
  achievements : List String
  technologies : List String
deriving DecidableEq, Repr

/-- Project record from MicrosoftTimeline.tsx; it adds a timeline
period string to the Projects-page record shape. -/
structure TimelineEntry where
  title : String
  description : String
  timeline : String
  impact : List ImpactMetric
  achievements : List String
  technologies : List String
deriving DecidableEq, Repr

/-- A node of the flattened view-model a page render produces, in
document order: header blocks, group headers with icons, skill rows,
dividers, experience headers, metric tiles, achievement rows and
technology chips. -/
inductive Node
  | headerText (title subtitle : String)
  | summary (t : String)
  | groupHeader (icon : IconTag) (label : String)
  | skillItem (n : String)
  | education (degree school : String)
  | spotlightTile (value label : String)
  | expHeader (title company location period : String)
  | bodyText (t : String)
  | achievementItem (t : String)
  | techChip (t : String)
  | cardTitle (t : String)
  | timelineLabel (t : String)
  | metricTile (metric value : String) (icon : IconTag)
  | divider
deriving DecidableEq, Repr

/-- Recognises the divider node. -/
def Node.isDivider : Node → Bool
  | .divider => true
  | _ => false

/-- Number of divider nodes in a rendered node list. -/
def dividerCount (ns : List Node) : Nat :=
  ns.countP Node.isDivider

/-- The labels of the group headers of a rendered node list, in
document order. -/
def headerLabels (ns : List Node) : List String :=
  ns.filterMap fun n =>
    match n with
    | Node.groupHeader _ l => some l
    | _ => none

/-- The card titles of a rendered node list, in document order. -/
def cardTitles (ns : List Node) : List String :=
  ns.filterMap fun n =>
    match n with
    | Node.cardTitle t => some t
    | _ => none

/-- The metric tiles of a rendered node list, in document order, as
metric-value-icon triples. -/
def tileTriples (ns : List Node) : List (String × String × IconTag) :=
  ns.filterMap fun n =>
    match n with
    | Node.metricTile m v i => some (m, v, i)
    | _ => none

/-- The achievement rows of a rendered node list, in document
order. -/
def achievementTexts (ns : List Node) : List String :=
  ns.filterMap fun n =>
    match n with
    | Node.achievementItem t => some t
    | _ => none

/-- The technology chips of a rendered node list, in document
order. -/
def chipTexts (ns : List Node) : List String :=
  ns.filterMap fun n =>
    match n with
    | Node.techChip t => some t
    | _ => none

/-- One skill-category section of the Technical Skills card in
App.tsx: a header box with the category icon and name, one row per
skill of the category, and a trailing divider when the position of
the key in the object is not the last one
(Object.keys(skillCategories).indexOf(category) is below
Object.keys(skillCategories).length - 1). -/
def renderGroup (total : Nat) (idx : Nat) (entry : String × List Skill) : List Node :=
  Node.groupHeader (getCategoryIcon entry.1) entry.1 ::
    entry.2.map (fun s => Node.skillItem s.name)
    ++ (if idx < total - 1 then [Node.divider] else [])

/-- Maps renderGroup over the category entries with their positional
index, as Object.entries(...).map does in App.tsx. -/
def renderGroupsFrom (total : Nat) : Nat → List (String × List Skill) → List Node
  | _, [] => []
  | i, e :: rest => renderGroup total i e ++ renderGroupsFrom total (i + 1) rest

/-- The Technical Skills card of App.tsx: every entry of
skillCategories is rendered as a section, in object key order. -/
def renderSkillsCard (skills : List Skill) : List Node :=
  renderGroupsFrom (skillCategories skills).length 0 (skillCategories skills)

/-- One experience block of the Professional Experience card in
App.tsx: header with title, company, location and period, the
description, the achievement rows, the technology chips, and a
divider when the index is below experiences.length - 1. -/
def renderExpEntry (total : Nat) (idx : Nat) (e : Experience) : List Node :=
  Node.expHeader e.title e.company e.location e.period ::
    Node.bodyText e.description ::
    e.achievements.map Node.achievementItem
    ++ e.technologies.map Node.techChip
    ++ (if idx < total - 1 then [Node.divider] else [])

/-- Maps renderExpEntry over the experience entries with their
positional index, as experiences.map does in App.tsx. -/
def renderExpFrom (total : Nat) : Nat → List Experience → List Node
  | _, [] => []
  | i, e :: rest => renderExpEntry total i e ++ renderExpFrom total (i + 1) rest

/-- The Professional Experience card of App.tsx. -/
def renderExperiences (exps : List Experience) : List Node :=
  renderExpFrom exps.length 0 exps

/-- One project card of MicrosoftProjects.tsx: title, description,
the impact metric tiles in declared order, the achievement rows and
the technology chips; the page emits no divider between cards. -/
def renderProjectCard (p : Project) : List Node :=
  Node.cardTitle p.title ::
    Node.bodyText p.description ::
    p.impact.map (fun m => Node.metricTile m.metric m.value m.icon)
    ++ p.achievements.map Node.achievementItem
    ++ p.technologies.map Node.techChip

/-- The MicrosoftProjects page: the gradient header text followed by
one card per project, in array order. -/
def renderProjectsPage (ps : List Project) : List Node :=
  Node.headerText "Microsoft Projects"
      "Showcasing key achievements and innovations at Microsoft\x27s C + AI Silver - Azure Gov Tooling"
    :: ps.flatMap renderProjectCard

/-- One project card of MicrosoftTimeline.tsx: like the Projects-page
card, with the timeline period line under the title. -/
def renderTimelineCard (p : TimelineEntry) : List Node :=
  Node.cardTitle p.title ::
    Node.timelineLabel p.timeline ::
    Node.bodyText p.description ::
    p.impact.map (fun m => Node.metricTile m.metric m.value m.icon)
    ++ p.achievements.map Node.achievementItem
    ++ p.technologies.map Node.techChip

/-- The MicrosoftTimeline page: the gradient header text followed by
one card per entry, in array order. -/
def renderTimelinePage (ts : List TimelineEntry) : List Node :=
  Node.headerText "Microsoft Timeline + Projects"
      "Showcasing my key achievements and innovations at Microsoft November 2021 - Present"
    :: ts.flatMap renderTimelineCard

/-- The summary paragraph of the Profile page in App.tsx. -/
def profileSummary : String :=
  "Software Engineer at Microsoft with 6 years of professional experience developing scalable Single Page Applications using React.js, building RESTful APIs with .NET (C#), and optimizing cloud deployments. Extensive experience in ELT pipelines, transforming trillions of records into actionable insights for monthly reports submitted to the U.S. government."

/-- The Profile page of App.tsx: hero header, summary card, the
Technical Skills card, the single education entry, the ConMon
spotlight tiles, and the Professional Experience card. -/
def assembleProfile (skills : List Skill) (exps : List Experience) : List Node :=
  Node.headerText "Andrew Li" "Software Engineer 2" ::
    Node.summary profileSummary ::
    renderSkillsCard skills
    ++ Node.education "B.S. Mathematics & Computer Science" "University of California San Diego" ::
      Node.spotlightTile "$25K+" "Monthly Cost Reduction" ::
      Node.spotlightTile "120+" "Hours Saved Monthly" ::
      Node.spotlightTile "95%" "Performance Improvement" ::
      renderExperiences exps

/-- The page keys of the components the repository can assemble: the
Portfolio profile page, the MicrosoftProjects page and the
MicrosoftTimeline page. -/
inductive PageKey
  | profile
  | projects
  | timeline
deriving DecidableEq, Repr

/-- The pages for which a component exists in the repository. -/
def assemblablePages : List PageKey :=
  [PageKey.profile, PageKey.projects, PageKey.timeline]

/-- The route table of App.tsx: Routes declares the path slash with
the Portfolio element and the path slash-microsoft-projects with the
MicrosoftProjects element; a path matching neither renders no route
element. -/
def route (path : String) : Option PageKey :=
  if path = "/" then some PageKey.profile
  else if path = "/microsoft-projects" then some PageKey.projects
  else none

/-- The static skills array of the Portfolio component in
App.tsx. -/
def skillsData : List Skill :=
  [⟨"React.js", Category.frontend⟩,
   ⟨"TypeScript", Category.frontend⟩,
   ⟨"JavaScript", Category.frontend⟩,
   ⟨"HTML5/CSS", Category.frontend⟩,
   ⟨"React Redux", Category.frontend⟩,
   ⟨"C#/.NET", Category.backend⟩,
   ⟨"Java", Category.backend⟩,
   ⟨"REST APIs", Category.backend⟩,
   ⟨"PostgreSQL", Category.backend⟩,
   ⟨"Python", Category.backend⟩,
   ⟨"Azure Portal", Category.cloud⟩,
   ⟨"ARM Templates", Category.cloud⟩,
   ⟨"Azure Synapse", Category.data⟩,
   ⟨"Azure Data Factory", Category.data⟩]

/-- The static experiences array of the Portfolio component in
App.tsx. -/
def experiencesData : List Experience :=
  [{ title := "Software Engineer 2"
     company := "Microsoft - C + AI Silver - Azure Gov Tooling"
     period := "Nov 2021 - Present"
     location := "Redmond, WA"
     description := "Leading development of critical government compliance applications including Azure ConMon and Microsoft Personnel systems."
     achievements :=
       ["Led migration of legacy Azure ConMon (FedRAMP Continuous Monitoring) to modernized web application across multiple clouds",
        "Reduced monthly operational costs by $25,000+ through system modernization and optimization",
        "Streamlined POAM report preparation, cutting 120+ hours per month for U.S. government submissions",
        "Integrated M365 data reducing manual effort by 40+ hours per month",
        "Delivered ConMon Resiliency Feature reducing resolution time from 2 hours to 15 minutes",
        "Achieved 75% reduction in ICMS incidents for Microsoft Personnel application",
        "Optimized rendering performance reducing unnecessary re-renders by 95%"]
     technologies := ["React.js", "TypeScript", "C#", "Azure Synapse", "Azure Data Factory", "ARM Templates"] },
   { title := "Software Engineer 2"
     company := "Northrop Grumman - Mission Systems"
     period := "July 2020 - Oct 2021"
     location := "San Diego, CA"
     description := "Developed features for JP2008 SATCOM web application focusing on full-stack development and code quality."
     achievements :=
       ["Developed and delivered features for JP2008 SATCOM web application",
        "Built RESTful APIs for PostgreSQL database using .NET C#",
        "Optimized query performance with SQL views",
        "Established React.js/JavaScript style guide using VS Code and ESLint",
        "Created library of reusable UI components to enhance development efficiency"]
     technologies := ["React.js", "JavaScript", "C#", "PostgreSQL", ".NET", "Visual Studio"] },
   { title := "Software Engineer 1"
     company := "BAE Systems - Electronic Systems Sector"
     period := "June 2019 - July 2020"
     location := "San Diego, CA"
     description := "Developed major features for MAFPS web application with focus on performance optimization and testing."
     achievements :=
       ["Developed major features for MAFPS (Mobility Air Forces Automated Flight Planning Service)",
        "Improved feature performance by ~10% through memory and performance analysis",
        "Increased test coverage from 68% to 83% using Enzyme unit tests",
        "Participated in Agile Kanban development and customer design meetings",
        "Integrated open-source components to accelerate development"]
     technologies := ["React.js", "JavaScript", "React Redux", "Enzyme", "Jest"] }]

/-- The Microsoft Personnel Systems project of MicrosoftProjects.tsx:
the one project of the page whose impact array is empty. -/
def personnelProject : Project :=
  { title := "Microsoft Personnel Systems"
    description := "Enhanced and optimized critical personnel management systems for Microsoft\x27s government sector, focusing on security compliance and performance improvements."
    impact := []
    achievements :=
      ["Led migration of legacy Azure ConMon (FedRAMP Continuous Monitoring) to modernized web application across multiple clouds",
       "Reduced monthly operational costs by $25,000+ through system modernization and optimization",
       "Streamlined POAM report preparation, cutting 120+ hours per month for U.S. government submissions",
       "Optimized rendering performance reducing unnecessary re-renders by 95%",
       "Worked on Personnel Project to build internal Microsoft employee management system for government contractors",
       "Delivered Features for Government Dynamic Forms and Security Clearance Management"]
    technologies := ["React.js", "TypeScript", "C#", "Arm Templates", "Azure DevOps"] }

/-- The static projects array of MicrosoftProjects.tsx. -/
def projectsData : List Project :=
  [{ title := "Tech Lead - MTAC & ConMon Applications and Serving as Temp PM for ConMon"
     description := "Leading Two projects under C + AI Silver - Mission Apps. MTAC is a critical compliance application used by US Government to track and manage security compliance of Microsoft Cloud offerings. ConMon is a FedRAMP Continuous Monitoring application used by US Government to track and manage security compliance of Microsoft Cloud offerings. Both applications process trillions of records from 25+ data sources for U.S. government submissions and have 6 different stakeholder teams to manage relationship with."
     impact :=
       [⟨"Mentorship", "Grew Teammate\x27s Velocity by 20%", IconTag.people⟩,
        ⟨"Time Saved", "100+ hours/month by delivering high impact features", IconTag.swapHoriz⟩,
        ⟨"Onboarding", "Virtual DB onboarded 3million+ records daily", IconTag.storage⟩]
     achievements :=
       ["Became the Tech Lead for 2 projects - both MTAC & ConMon applications under C + AI Silver - Mission Apps",
        "Tutored and mentored engineers on MTAC and ConMon teams, fostering skill development and knowledge sharing",
        "Worked with Stakeholders to create new high impact features and swap out existing low impact features cutting 60+ hours per month",
        "Spearheading S360 Security Initiative on ConMon and MTAC",
        "Spearheading Cline AI Initiative on Mission Apps"]
     technologies := ["React.js", "TypeScript", "Azure Synapse", "Azure Data Factory", "C#", ".NET", "Python", "ARM Templates", "Azure DevOps"] },
   { title := "BaselineOS and PhysicalDB Assets Onboarding + Resiliency Feature"
     description := "Led the complete migration of legacy Azure ConMon (FedRAMP Continuous Monitoring) to a modernized compliance web application, processing trillions of records from 25+ data sources for U.S. government submissions."
     impact :=
       [⟨"Time Saved", "120+ hours/month", IconTag.speed⟩,
        ⟨"Performance", "10+ Billion Records Processed Daily", IconTag.storage⟩,
        ⟨"Reliability", "85% Decrease in Incidents", IconTag.trendingDown⟩]
     achievements :=
       ["Onboarded Database and BaselineOS Assets onto ConMon Application, enhancing data comprehensiveness and saving 20+ hours per month",
        "Delivered ConMon Resiliency Feature reducing resolution time from 2 hours to 15 minutes and Achieved 85% reduction in ICMS incidents for ConMon Data Pipelines",
        "Led S360 Security Initiative on ConMon",
        "Spearheading Cline AI Initiative on Mission Apps"]
     technologies := ["React.js", "TypeScript", "Azure Synapse", "Azure Data Factory", "C#", ".NET", "Python", "ARM Templates", "Azure DevOps"] },
   { title := "M365 ConMon Onboarding"
     description := "Led the complete migration of legacy Azure ConMon (FedRAMP Continuous Monitoring) to a modernized compliance web application, processing trillions of records from 25+ data sources for U.S. government submissions."
     impact :=
       [⟨"Cost Savings", "$10K+/month", IconTag.attachMoney⟩,
        ⟨"Time Saved", "40+ hours/month", IconTag.speed⟩]
     achievements :=
       ["Integrated M365 data onto ConMon Application reducing manual effort by 40+ hours per month"]
     technologies := ["React.js", "TypeScript", "Azure Synapse", "Azure Data Factory", "C#", ".NET", "Python", "ARM Templates", "Azure DevOps"] },
   { title := "Azure ConMon Modernization"
     description := "Led the complete migration of legacy Azure ConMon (FedRAMP Continuous Monitoring) to a modernized compliance web application, processing trillions of records from 25+ data sources for U.S. government submissions."
     impact :=
       [⟨"Cost Savings", "$25K+/month", IconTag.attachMoney⟩,
        ⟨"Time Saved", "120+ hours/month", IconTag.speed⟩,
        ⟨"Performance", "10+ Billion Records Processed Daily", IconTag.storage⟩,
        ⟨"Reliability", "85% Decrease in Incidents", IconTag.trendingDown⟩]
     achievements :=
       ["Led development of data pipelines and ETL processes using Azure Synapse to aggregate and process data from 25+ sources",
        "Created over 100 dataflows and 30+ pipelines to automate data ingestion, transformation, and loading on a daily basis",
        "Tutored and mentored engineers on MTAC and ConMon teams, fostering skill development and knowledge sharing",
        "Integrated M365 data onto ConMon Application reducing manual effort by 40+ hours per month",
        "Onboarded Database and BaselineOS Assets onto ConMon Application, enhancing data comprehensiveness and saving 40+ hours per month",
        "Worked with Stakeholders to create high impact features streamlining POAM report preparation and cutting 60+ hours per month",
        "Delivered ConMon Resiliency Feature reducing resolution time from 2 hours to 15 minutes and Achieved 85% reduction in ICMS incidents for ConMon Data Pipelines",
        "Spearheading S360 Security Initiative on ConMon",
        "Spearheading Cline AI Initiative on Mission Apps"]
     technologies := ["React.js", "TypeScript", "Azure Synapse", "Azure Data Factory", "C#", ".NET", "Python", "ARM Templates", "Azure DevOps"] },
   personnelProject]

/-- The Microsoft Personnel Systems entry of MicrosoftTimeline.tsx:
the one entry of the page whose impact array is empty. -/
def personnelTimelineEntry : TimelineEntry :=
  { title := "Microsoft Personnel Systems"
    description := "Enhanced and optimized critical personnel management systems for Microsoft\x27s government sector, focusing on security compliance and performance improvements."
    timeline := "November 2021 - May 2023"
    impact := []
    achievements :=
      ["Optimized rendering performance reducing unnecessary re-renders by 95% for multiple personnel user interfaces",
       "Worked on the Personnel Project to deliver features for new dynamic Government Forms page",
       "Delivered Security Clearance Management features for Personnel application"]
    technologies := ["React.js", "TypeScript", "C#", "Arm Templates", "Azure DevOps"] }

/-- The static projects array of MicrosoftTimeline.tsx. -/
def timelineData : List TimelineEntry :=
  [{ title := "Tech Lead - MTAC & ConMon Applications and Serving as Temp PM for ConMon"
     description := "Leading Two projects under C + AI Silver - Mission Apps. MTAC is a critical compliance application used by US Government to track and manage security compliance of Microsoft Cloud offerings. ConMon is a FedRAMP Continuous Monitoring application used by US Government to track and manage security compliance of Microsoft Cloud offerings for Azure and M365. Both applications process trillions of records from 25+ data sources for U.S. government submissions and have 6 different stakeholder teams to manage relationship with."
     timeline := "April 2025 - Present"
     impact :=
       [⟨"Mentorship", "Grew Teammate\x27s Velocity by 25%", IconTag.people⟩,
        ⟨"Time Saved", "120+ hours/month by delivering high impact features", IconTag.swapHoriz⟩,
        ⟨"3 Jobs in 1", "Tech Lead, IC SWE, Product Manager", IconTag.people⟩]
     achievements :=
       ["Became the Tech Lead for 2 projects - both MTAC & ConMon applications under C + AI Silver - Mission Apps",
        "Serving as Temp Product Manager for ConMon project, coordinating between multiple teams and stakeholders to ensure timely delivery of features and bug fixes",
        "Tutored and mentored engineers on MTAC and ConMon teams, fostering skill development and knowledge sharing",
        "Worked with Stakeholders to swap out existing low impact features with new high impact features cutting 60+ hours per month",
        "Managed a full slate of features, balancing stakeholder priorities, timelines, and emergency requests, and security requirements",
        "Spearheading S360 Security Initiative on ConMon and MTAC",
        "Spearheading Cline AI Initiative on Mission Apps",
        "Serving as Temp Product Manager for ConMon project, coordinating between multiple teams and stakeholders to ensure timely delivery of features and bug fixes",
        "Onboarded Several High Impact Features automating a total estimated 120+ hours per month of manual work for stakeholders"]
     technologies := ["React.js", "TypeScript", "Azure Synapse", "Azure Data Factory", "C#", ".NET", "Python", "ARM Templates", "Azure DevOps"] },
   { title := "ConMon Tech Lead - Delivering BaselineOS and PhysicalDB Assets Onboarding + Resiliency Feature + More"
     description := "Led the complete migration of legacy Azure ConMon (FedRAMP Continuous Monitoring) to a modernized compliance web application, processing trillions of records from 25+ data sources for U.S. government submissions."
     timeline := "March 2024 - April 2025"
     impact :=
       [⟨"Time Saved", "120+ hours/month", IconTag.speed⟩,
        ⟨"Performance", "10+ Billion Additional Records Processed Daily", IconTag.storage⟩,
        ⟨"Reliability", "85% Decrease in Incidents", IconTag.trendingDown⟩]
     achievements :=
       ["ConMon Tech Lead - managed a full slate of features, balancing stakeholder prioties, timelines, and emergency requests",
        "Onboarded Database and BaselineOS Assets onto ConMon Application, enhancing data comprehensiveness and saving 20+ hours per month",
        "Delivered ConMon Resiliency Feature reducing resolution time from 2 hours to 15 minutes and Achieved 85% reduction in ICMS incidents for ConMon Data Pipelines",
        "Led S360 Security Initiative on ConMon",
        "For specific emergency rollback stakeholder requests, I communicated mutliple solutions and tradeoffs, ultimately delivering a solution that satisfied all parties and fit our timeline",
        "Increased personal velocity by improving own processes and improved context switching, and learned how to use AI tools to improve productivity"]
     technologies := ["React.js", "TypeScript", "Azure Synapse", "Azure Data Factory", "C#", ".NET", "Python", "ARM Templates", "Azure DevOps"] },
   { title := "M365 ConMon Onboarding"
     description := "Led the complete migration of legacy Azure ConMon (FedRAMP Continuous Monitoring) to a modernized compliance web application, processing trillions of records from 25+ data sources for U.S. government submissions."
     timeline := "Jan 2024 - March 2024"
     impact :=
       [⟨"Cost Savings", "$10K+/month", IconTag.attachMoney⟩,
        ⟨"Time Saved", "40+ hours/month", IconTag.speed⟩]
     achievements :=
       ["Integrated M365 data onto ConMon Application reducing manual effort by 40+ hours per month",
        "Identified and resolved critical data discrepancies between M365 and ConMon datasets, ensuring data integrity and reliability",
        "Collaborated with M365 teams to streamline data ingestion processes, enhancing overall system efficiency"]
     technologies := ["React.js", "TypeScript", "Azure Synapse", "Azure Data Factory", "C#", ".NET", "Python", "ARM Templates", "Azure DevOps"] },
   { title := "Azure ConMon Modernization"
     description := "Led the complete migration of legacy Azure ConMon (FedRAMP Continuous Monitoring) to a modernized compliance web application, processing trillions of records from 25+ data sources for U.S. government submissions."
     timeline := "May 2023 - Jan 2024"
     impact :=
       [⟨"Cost Savings", "$25K+/month", IconTag.attachMoney⟩,
        ⟨"Time Saved", "120+ hours/month", IconTag.speed⟩,
        ⟨"Performance", "2 Billion Records Processed Daily", IconTag.storage⟩,
        ⟨"Reliability", "90% Decrease in need for manual intervention compared to Legacy System", IconTag.trendingDown⟩,
        ⟨"Speed", "10hrs => 2.5hrs Pipeline RunTime", IconTag.trendingDown⟩]
     achievements :=
       ["Led development of data pipelines and ETL processes using Azure Synapse to aggregate and process data from 25+ sources",
        "Created a Roadmap of required data processing and ingestion tasks to onboard Azure data onto ConMon Application",
        "Created over 100 dataflows and 30+ pipelines to automate data ingestion, transformation, and loading on a daily basis",
        "Mapped required inputs and outputs of several data processes to figure out how to create POA&Ms more efficiently",
        "Proposed and Delivered Independently effort to reduce overall pipeline runtime from 10hrs long to 2.5hrs in length"]
     technologies := ["React.js", "TypeScript", "Azure Synapse", "Azure Data Factory", "C#", ".NET", "Python", "ARM Templates", "Azure DevOps"] },
   personnelTimelineEntry]

/-! Helper lemmas about the rendering functions. -/

theorem filterMap_const_none {α β : Type} (l : List α) :
    l.filterMap (fun _ => (none : Option β)) = [] := by
  induction l with
  | nil => rfl
  | cons a l ih => simp [ih]

theorem dividerCount_append (a b : List Node) :
    dividerCount (a ++ b) = dividerCount a + dividerCount b :=
  List.countP_append _ a b

theorem countP_isDivider_map_skillItem (l : List Skill) :
    List.countP Node.isDivider (l.map (fun s => Node.skillItem s.name)) = 0 := by
  rw [List.countP_map]
  exact List.countP_eq_zero.mpr (by intro a _; simp [Function.comp, Node.isDivider])

theorem countP_isDivider_map_achievement (l : List String) :
    List.countP Node.isDivider (l.map Node.achievementItem) = 0 := by
  rw [List.countP_map]
  exact List.countP_eq_zero.mpr (by intro a _; simp [Function.comp, Node.isDivider])

theorem countP_isDivider_map_chip (l : List String) :
    List.countP Node.isDivider (l.map Node.techChip) = 0 := by
  rw [List.countP_map]
  exact List.countP_eq_zero.mpr (by intro a _; simp [Function.comp, Node.isDivider])

theorem countP_isDivider_map_tile (l : List ImpactMetric) :
    List.countP Node.isDivider (l.map (fun m => Node.metricTile m.metric m.value m.icon)) = 0 := by
  rw [List.countP_map]
  exact List.countP_eq_zero.mpr (by intro a _; simp [Function.comp, Node.isDivider])

theorem dividerCount_renderGroup (total idx : Nat) (e : String × List Skill) :
    dividerCount (renderGroup total idx e) = if idx < total - 1 then 1 else 0 := by
  unfold renderGroup dividerCount
  by_cases h : idx < total - 1 <;>
    simp [h, List.countP_append, List.countP_cons, Node.isDivider,
      countP_isDivider_map_skillItem]

theorem countP_comp_achievement (l : List String) :
    List.countP (Node.isDivider ∘ Node.achievementItem) l = 0 :=
  List.countP_eq_zero.mpr (by intro a _; simp [Function.comp, Node.isDivider])

theorem countP_comp_chip (l : List String) :
    List.countP (Node.isDivider ∘ Node.techChip) l = 0 :=
  List.countP_eq_zero.mpr (by intro a _; simp [Function.comp, Node.isDivider])

theorem dividerCount_renderExpEntry (total idx : Nat) (e : Experience) :
    dividerCount (renderExpEntry total idx e) = if idx < total - 1 then 1 else 0 := by
  unfold renderExpEntry dividerCount
  by_cases h : idx < total - 1 <;>
    simp [h, List.countP_append, List.countP_cons, Node.isDivider,
      countP_comp_achievement, countP_comp_chip]

theorem dividerCount_renderExpFrom (l : List Experience) :
    ∀ i n, i + l.length = n → dividerCount (renderExpFrom n i l) = l.length - 1 := by
  induction l with
  | nil => intro i n _; simp [renderExpFrom, dividerCount]
  | cons e rest ih =>
    intro i n h
    simp only [List.length_cons] at h
    rw [renderExpFrom, dividerCount_append, dividerCount_renderExpEntry,
      ih (i + 1) n (by omega)]
    simp only [List.length_cons]
    by_cases hc : i < n - 1
    · simp only [if_pos hc]
      omega
    · simp only [if_neg hc]
      omega

theorem dividerCount_renderExperiences (exps : List Experience) :
    dividerCount (renderExperiences exps) = exps.length - 1 :=
  dividerCount_renderExpFrom exps 0 exps.length (by omega)

theorem dividerCount_renderSkillsCard (skills : List Skill) :
    dividerCount (renderSkillsCard skills) = 3 := by
  unfold renderSkillsCard skillCategories
  simp only [List.length_cons, List.length_nil, renderGroupsFrom]
  rw [dividerCount_append, dividerCount_append, dividerCount_append,
    dividerCount_append, dividerCount_renderGroup, dividerCount_renderGroup,
    dividerCount_renderGroup, dividerCount_renderGroup]
  simp [renderGroupsFrom, dividerCount]

theorem filterMap_some_eq_map {α β : Type} (f : α → β) (l : List α) :
    l.filterMap (fun a => some (f a)) = l.map f := by
  induction l with
  | nil => rfl
  | cons a l ih => simp [ih]

theorem headerLabels_append (a b : List Node) :
    headerLabels (a ++ b) = headerLabels a ++ headerLabels b := by
  simp only [headerLabels, List.filterMap_append]

theorem tileTriples_append (a b : List Node) :
    tileTriples (a ++ b) = tileTriples a ++ tileTriples b := by
  simp only [tileTriples, List.filterMap_append]

theorem cardTitles_append (a b : List Node) :
    cardTitles (a ++ b) = cardTitles a ++ cardTitles b := by
  simp only [cardTitles, List.filterMap_append]

theorem achievementTexts_append (a b : List Node) :
    achievementTexts (a ++ b) = achievementTexts a ++ achievementTexts b := by
  simp only [achievementTexts, List.filterMap_append]

theorem chipTexts_append (a b : List Node) :
    chipTexts (a ++ b) = chipTexts a ++ chipTexts b := by
  simp only [chipTexts, List.filterMap_append]

theorem headerLabels_cons_groupHeader (i : IconTag) (s : String) (l : List Node) :
    headerLabels (Node.groupHeader i s :: l) = s :: headerLabels l := rfl

theorem headerLabels_map_skillItem (l : List Skill) :
    headerLabels (l.map (fun s => Node.skillItem s.name)) = [] := by
  induction l with
  | nil => rfl
  | cons a l ih => exact ih

theorem headerLabels_ite_divider (c : Prop) [Decidable c] :
    headerLabels (if c then [Node.divider] else []) = [] := by
  split <;> rfl

theorem tileTriples_cons_cardTitle (s : String) (l : List Node) :
    tileTriples (Node.cardTitle s :: l) = tileTriples l := rfl

theorem tileTriples_cons_bodyText (s : String) (l : List Node) :
    tileTriples (Node.bodyText s :: l) = tileTriples l := rfl

theorem tileTriples_cons_timelineLabel (s : String) (l : List Node) :
    tileTriples (Node.timelineLabel s :: l) = tileTriples l := rfl

theorem tileTriples_map_tile (l : List ImpactMetric) :
    tileTriples (l.map (fun m => Node.metricTile m.metric m.value m.icon)) =
      l.map (fun m => (m.metric, m.value, m.icon)) := by
  induction l with
  | nil => rfl
  | cons a l ih => exact congrArg (List.cons _) ih

theorem tileTriples_map_achievement (l : List String) :
    tileTriples (l.map Node.achievementItem) = [] := by
  induction l with
  | nil => rfl
  | cons a l ih => exact ih

theorem tileTriples_map_chip (l : List String) :
    tileTriples (l.map Node.techChip) = [] := by
  induction l with
  | nil => rfl
  | cons a l ih => exact ih

theorem cardTitles_cons_cardTitle (s : String) (l : List Node) :
    cardTitles (Node.cardTitle s :: l) = s :: cardTitles l := rfl

theorem cardTitles_cons_bodyText (s : String) (l : List Node) :
    cardTitles (Node.bodyText s :: l) = cardTitles l := rfl

theorem cardTitles_cons_timelineLabel (s : String) (l : List Node) :
    cardTitles (Node.timelineLabel s :: l) = cardTitles l := rfl

theorem cardTitles_cons_headerText (s u : String) (l : List Node) :
    cardTitles (Node.headerText s u :: l) = cardTitles l := rfl

theorem cardTitles_map_tile (l : List ImpactMetric) :
    cardTitles (l.map (fun m => Node.metricTile m.metric m.value m.icon)) = [] := by
  induction l with
  | nil => rfl
  | cons a l ih => exact ih

theorem cardTitles_map_achievement (l : List String) :
    cardTitles (l.map Node.achievementItem) = [] := by
  induction l with
  | nil => rfl
  | cons a l ih => exact ih

theorem cardTitles_map_chip (l : List String) :
    cardTitles (l.map Node.techChip) = [] := by
  induction l with
  | nil => rfl
  | cons a l ih => exact ih

theorem achievementTexts_cons_cardTitle (s : String) (l : List Node) :
    achievementTexts (Node.cardTitle s :: l) = achievementTexts l := rfl

theorem achievementTexts_cons_bodyText (s : String) (l : List Node) :
    achievementTexts (Node.bodyText s :: l) = achievementTexts l := rfl

theorem achievementTexts_cons_timelineLabel (s : String) (l : List Node) :
    achievementTexts (Node.timelineLabel s :: l) = achievementTexts l := rfl

theorem achievementTexts_map_tile (l : List ImpactMetric) :
    achievementTexts (l.map (fun m => Node.metricTile m.metric m.value m.icon)) = [] := by
  induction l with
  | nil => rfl
  | cons a l ih => exact ih

theorem achievementTexts_map_achievement (l : List String) :
    achievementTexts (l.map Node.achievementItem) = l := by
  induction l with
  | nil => rfl
  | cons a l ih => exact congrArg (List.cons _) ih

theorem achievementTexts_map_chip (l : List String) :
    achievementTexts (l.map Node.techChip) = [] := by
  induction l with
  | nil => rfl
  | cons a l ih => exact ih

theorem chipTexts_cons_cardTitle (s : String) (l : List Node) :
    chipTexts (Node.cardTitle s :: l) = chipTexts l := rfl

theorem chipTexts_cons_bodyText (s : String) (l : List Node) :
    chipTexts (Node.bodyText s :: l) = chipTexts l := rfl

theorem chipTexts_cons_timelineLabel (s : String) (l : List Node) :
    chipTexts (Node.timelineLabel s :: l) = chipTexts l := rfl

theorem chipTexts_map_tile (l : List ImpactMetric) :
    chipTexts (l.map (fun m => Node.metricTile m.metric m.value m.icon)) = [] := by
  induction l with
  | nil => rfl
  | cons a l ih => exact ih

theorem chipTexts_map_achievement (l : List String) :
    chipTexts (l.map Node.achievementItem) = [] := by
  induction l with
  | nil => rfl
  | cons a l ih => exact ih

theorem chipTexts_map_chip (l : List String) :
    chipTexts (l.map Node.techChip) = l := by
  induction l with
  | nil => rfl
  | cons a l ih => exact congrArg (List.cons _) ih

theorem headerLabels_renderSkillsCard (skills : List Skill) :
    headerLabels (renderSkillsCard skills) = declaredCategories := by
  simp only [renderSkillsCard, skillCategories, renderGroupsFrom, renderGroup,
    headerLabels_append, headerLabels_cons_groupHeader, headerLabels_map_skillItem,
    headerLabels_ite_divider]
  rfl

theorem tileTriples_renderProjectCard (p : Project) :
    tileTriples (renderProjectCard p) = p.impact.map (fun m => (m.metric, m.value, m.icon)) := by
  simp only [renderProjectCard, tileTriples_append, tileTriples_cons_cardTitle,
    tileTriples_cons_bodyText, tileTriples_map_tile, tileTriples_map_achievement,
    tileTriples_map_chip, List.append_nil]

theorem cardTitles_renderProjectCard (p : Project) :
    cardTitles (renderProjectCard p) = [p.title] := by
  simp only [renderProjectCard, cardTitles_append, cardTitles_cons_cardTitle,
    cardTitles_cons_bodyText, cardTitles_map_tile, cardTitles_map_achievement,
    cardTitles_map_chip, List.append_nil]

theorem achievementTexts_renderProjectCard (p : Project) :
    achievementTexts (renderProjectCard p) = p.achievements := by
  simp only [renderProjectCard, achievementTexts_append, achievementTexts_cons_cardTitle,
    achievementTexts_cons_bodyText, achievementTexts_map_tile,
    achievementTexts_map_achievement, achievementTexts_map_chip, List.append_nil,
    List.nil_append]

theorem chipTexts_renderProjectCard (p : Project) :
    chipTexts (renderProjectCard p) = p.technologies := by
  simp only [renderProjectCard, chipTexts_append, chipTexts_cons_cardTitle,
    chipTexts_cons_bodyText, chipTexts_map_tile, chipTexts_map_achievement,
    chipTexts_map_chip, List.append_nil, List.nil_append]

theorem tileTriples_renderTimelineCard (t : TimelineEntry) :
    tileTriples (renderTimelineCard t) = t.impact.map (fun m => (m.metric, m.value, m.icon)) := by
  simp only [renderTimelineCard, tileTriples_append, tileTriples_cons_cardTitle,
    tileTriples_cons_timelineLabel, tileTriples_cons_bodyText, tileTriples_map_tile,
    tileTriples_map_achievement, tileTriples_map_chip, List.append_nil]

theorem cardTitles_renderTimelineCard (t : TimelineEntry) :
    cardTitles (renderTimelineCard t) = [t.title] := by
  simp only [renderTimelineCard, cardTitles_append, cardTitles_cons_cardTitle,
    cardTitles_cons_timelineLabel, cardTitles_cons_bodyText, cardTitles_map_tile,
    cardTitles_map_achievement, cardTitles_map_chip, List.append_nil]

theorem achievementTexts_renderTimelineCard (t : TimelineEntry) :
    achievementTexts (renderTimelineCard t) = t.achievements := by
  simp only [renderTimelineCard, achievementTexts_append, achievementTexts_cons_cardTitle,
    achievementTexts_cons_timelineLabel, achievementTexts_cons_bodyText,
    achievementTexts_map_tile, achievementTexts_map_achievement, achievementTexts_map_chip,
    List.append_nil, List.nil_append]

theorem chipTexts_renderTimelineCard (t : TimelineEntry) :
    chipTexts (renderTimelineCard t) = t.technologies := by
  simp only [renderTimelineCard, chipTexts_append, chipTexts_cons_cardTitle,
    chipTexts_cons_timelineLabel, chipTexts_cons_bodyText, chipTexts_map_tile,
    chipTexts_map_achievement, chipTexts_map_chip, List.append_nil, List.nil_append]

theorem cardTitles_renderProjectsPage (ps : List Project) :
    cardTitles (renderProjectsPage ps) = ps.map Project.title := by
  rw [renderProjectsPage, cardTitles, List.filterMap_cons]
  show cardTitles (ps.flatMap renderProjectCard) = ps.map Project.title
  induction ps with
  | nil => rfl
  | cons p rest ih =>
    rw [List.flatMap_cons, cardTitles, List.filterMap_append]
    show cardTitles (renderProjectCard p) ++ cardTitles (rest.flatMap renderProjectCard) = _
    rw [cardTitles_renderProjectCard, ih, List.map_cons, List.singleton_append]

theorem cardTitles_renderTimelinePage (ts : List TimelineEntry) :
    cardTitles (renderTimelinePage ts) = ts.map TimelineEntry.title := by
  rw [renderTimelinePage, cardTitles, List.filterMap_cons]
  show cardTitles (ts.flatMap renderTimelineCard) = ts.map TimelineEntry.title
  induction ts with
  | nil => rfl
  | cons t rest ih =>
    rw [List.flatMap_cons, cardTitles, List.filterMap_append]
    show cardTitles (renderTimelineCard t) ++ cardTitles (rest.flatMap renderTimelineCard) = _
    rw [cardTitles_renderTimelineCard, ih, List.map_cons, List.singleton_append]

theorem dividerCount_renderProjectCard (p : Project) :
    dividerCount (renderProjectCard p) = 0 := by
  simp [renderProjectCard, dividerCount, List.countP_append, List.countP_cons,
    Node.isDivider, List.countP_map, countP_comp_achievement, countP_comp_chip,
    Function.comp]

theorem dividerCount_renderTimelineCard (t : TimelineEntry) :
    dividerCount (renderTimelineCard t) = 0 := by
  simp [renderTimelineCard, dividerCount, List.countP_append, List.countP_cons,
    Node.isDivider, List.countP_map, countP_comp_achievement, countP_comp_chip,
    Function.comp]

theorem dividerCount_renderProjectsPage (ps : List Project) :
    dividerCount (renderProjectsPage ps) = 0 := by
  rw [renderProjectsPage, dividerCount, List.countP_cons_of_neg _ _ (by simp [Node.isDivider])]
  induction ps with
  | nil => rfl
  | cons p rest ih =>
    rw [List.flatMap_cons, List.countP_append, ih]
    rw [show List.countP Node.isDivider (renderProjectCard p) = 0 from
      dividerCount_renderProjectCard p]

theorem dividerCount_renderTimelinePage (ts : List TimelineEntry) :
    dividerCount (renderTimelinePage ts) = 0 := by
  rw [renderTimelinePage, dividerCount, List.countP_cons_of_neg _ _ (by simp [Node.isDivider])]
  induction ts with
  | nil => rfl
  | cons t rest ih =>
    rw [List.flatMap_cons, List.countP_append, ih]
    rw [show List.countP Node.isDivider (renderTimelineCard t) = 0 from
      dividerCount_renderTimelineCard t]

theorem count_filter_of_neg {α : Type} [DecidableEq α] {p : α → Bool} {a : α}
    (h : p a = false) (l : List α) : List.count a (l.filter p) = 0 := by
  rw [List.count_eq_zero]
  intro hmem
  have hpa := List.of_mem_filter hmem
  rw [h] at hpa
  exact Bool.noConfusion hpa

theorem flatMap_skillCategories_perm (skills : List Skill) :
    ((skillCategories skills).flatMap Prod.snd).Perm skills := by
  rw [List.perm_iff_count]
  intro a
  simp only [skillCategories, List.flatMap_cons, List.flatMap_nil, List.append_nil,
    List.count_append]
  cases hc : a.category
  case frontend =>
    have h1 : List.count a (skills.filter (fun s => s.category = Category.frontend)) =
        List.count a skills := List.count_filter (by simp [hc])
    have h2 : List.count a (skills.filter (fun s => s.category = Category.backend)) = 0 :=
      count_filter_of_neg (by simp [hc]) skills
    have h3 : List.count a (skills.filter (fun s => s.category = Category.cloud)) = 0 :=
      count_filter_of_neg (by simp [hc]) skills
    have h4 : List.count a (skills.filter (fun s => s.category = Category.data)) = 0 :=
      count_filter_of_neg (by simp [hc]) skills
    rw [h1, h2, h3, h4]
    omega
  case backend =>
    have h1 : List.count a (skills.filter (fun s => s.category = Category.frontend)) = 0 :=
      count_filter_of_neg (by simp [hc]) skills
    have h2 : List.count a (skills.filter (fun s => s.category = Category.backend)) =
        List.count a skills := List.count_filter (by simp [hc])
    have h3 : List.count a (skills.filter (fun s => s.category = Category.cloud)) = 0 :=
      count_filter_of_neg (by simp [hc]) skills
    have h4 : List.count a (skills.filter (fun s => s.category = Category.data)) = 0 :=
      count_filter_of_neg (by simp [hc]) skills
    rw [h1, h2, h3, h4]
    omega
  case cloud =>
    have h1 : List.count a (skills.filter (fun s => s.category = Category.frontend)) = 0 :=
      count_filter_of_neg (by simp [hc]) skills
    have h2 : List.count a (skills.filter (fun s => s.category = Category.backend)) = 0 :=
      count_filter_of_neg (by simp [hc]) skills
    have h3 : List.count a (skills.filter (fun s => s.category = Category.cloud)) =
        List.count a skills := List.count_filter (by simp [hc])
    have h4 : List.count a (skills.filter (fun s => s.category = Category.data)) = 0 :=
      count_filter_of_neg (by simp [hc]) skills
    rw [h1, h2, h3, h4]
    omega
  case data =>
    have h1 : List.count a (skills.filter (fun s => s.category = Category.frontend)) = 0 :=
      count_filter_of_neg (by simp [hc]) skills
    have h2 : List.count a (skills.filter (fun s => s.category = Category.backend)) = 0 :=
      count_filter_of_neg (by simp [hc]) skills
    have h3 : List.count a (skills.filter (fun s => s.category = Category.cloud)) = 0 :=
      count_filter_of_neg (by simp [hc]) skills
    have h4 : List.count a (skills.filter (fun s => s.category = Category.data)) =
        List.count a skills := List.count_filter (by simp [hc])
    rw [h1, h2, h3, h4]
    omega

theorem snd_skillCategories_sublist (skills : List Skill) :
    ∀ pr ∈ skillCategories skills, pr.2.Sublist skills := by
  intro pr hpr
  simp only [skillCategories, List.mem_cons, List.not_mem_nil, or_false] at hpr
  rcases hpr with h | h | h | h <;> subst h <;> exact List.filter_sublist skills

theorem snd_skillCategories_eq_filter_label (skills : List Skill) :
    ∀ pr ∈ skillCategories skills, pr.2 = skills.filter (fun s => s.category.label = pr.1) := by
  intro pr hpr
  simp only [skillCategories, List.mem_cons, List.not_mem_nil, or_false] at hpr
  rcases hpr with h | h | h | h <;> subst h <;>
    exact List.filter_congr (by intro s _; cases s.category <;> rfl)

/-! Claim theorems. -/

/-- Counterexample to claim C1 as stated: for the unmapped category
value DevOps the classifier does not fail at all; it silently returns
the same Code icon that the Backend category uses, through the
implicit default branch of the switch. -/
theorem getCategoryIcon_devops_fallback :
    getCategoryIcon "DevOps" = IconTag.code ∧
      getCategoryIcon "DevOps" = getCategoryIcon "Backend" := by
  constructor <;> rfl

/-- Claim C1 (corrected): the code has no ConfigurationError; for
every category value outside the four mapped ones, getCategoryIcon
returns the Code icon via the implicit default branch, so the
fallback is implicit rather than explicitly declared. -/
theorem getCategoryIcon_default_branch (c : String)
    (h1 : c ≠ "Frontend") (h2 : c ≠ "Backend") (h3 : c ≠ "Cloud") (h4 : c ≠ "Data") :
    getCategoryIcon c = IconTag.code := by
  simp [getCategoryIcon, h1, h2, h3, h4]

/-- Witness for the C1 theorem at the concrete unmapped value
DevOps. -/
theorem getCategoryIcon_default_branch_witness :
    getCategoryIcon "DevOps" = IconTag.code :=
  getCategoryIcon_default_branch "DevOps" (by decide) (by decide) (by decide) (by decide)

/-- Counterexample to claim C2 as stated: with a single Frontend
skill as input no skill has category Data, yet the rendered skills
card still contains a Data group header, and it contains three
dividers. -/
theorem emptyGroup_counterexample :
    Node.groupHeader IconTag.storage "Data" ∈
        renderSkillsCard [⟨"React.js", Category.frontend⟩] ∧
      dividerCount (renderSkillsCard [⟨"React.js", Category.frontend⟩]) = 3 := by
  constructor <;> decide

/-- Claim C2 (corrected): a category with zero member skills is not
omitted: for every input, each of the four declared categories
produces a group header section in the skills card (an empty category
renders a header with no skill rows), and the card always contains
exactly three dividers regardless of which groups are empty. -/
theorem empty_groups_not_omitted (skills : List Skill) :
    (∀ c ∈ declaredCategories,
      Node.groupHeader (getCategoryIcon c) c ∈ renderSkillsCard skills) ∧
    dividerCount (renderSkillsCard skills) = 3 := by
  constructor
  · intro c hc
    simp only [declaredCategories, List.mem_cons, List.not_mem_nil, or_false] at hc
    rcases hc with h | h | h | h <;> subst h <;>
      simp [renderSkillsCard, skillCategories, renderGroupsFrom, renderGroup,
        List.mem_append, List.mem_cons]
  · exact dividerCount_renderSkillsCard skills

/-- Witness for the C2 theorem: in the static skill data the Cloud
header is present and the card has three dividers. -/
theorem empty_groups_not_omitted_witness :
    Node.groupHeader (getCategoryIcon "Cloud") "Cloud" ∈ renderSkillsCard skillsData ∧
      dividerCount (renderSkillsCard skillsData) = 3 :=
  ⟨(empty_groups_not_omitted skillsData).1 "Cloud" (by decide),
   (empty_groups_not_omitted skillsData).2⟩

/-- Counterexample to claim C3 as stated: with a single Backend skill
as input there is exactly one non-empty group, so the claim predicts
zero dividers, but the rendered skills card contains three. -/
theorem divider_count_counterexample :
    (skillCategories [⟨"C#/.NET", Category.backend⟩]).countP (fun pr => !pr.2.isEmpty) = 1 ∧
      dividerCount (renderSkillsCard [⟨"C#/.NET", Category.backend⟩]) = 3 := by
  constructor <;> decide

/-- Claim C3 (corrected): for every sequence of n experience entries
the profile page emits exactly n minus one dividers (zero when n is
at most one); for the skills card the divider count is always the
number of declared category keys minus one, namely three, regardless
of how many groups are non-empty, which equals n minus one only when
all four declared groups are non-empty. -/
theorem divider_count_invariant :
    (∀ exps : List Experience, dividerCount (renderExperiences exps) = exps.length - 1) ∧
    (∀ skills : List Skill,
      dividerCount (renderSkillsCard skills) = (skillCategories skills).length - 1) := by
  constructor
  · exact dividerCount_renderExperiences
  · intro skills
    rw [dividerCount_renderSkillsCard]
    rfl

/-- Witness for the C3 theorem: the three static experience entries
produce exactly two dividers. -/
theorem divider_count_invariant_witness :
    dividerCount (renderExperiences experiencesData) = 2 :=
  (divider_count_invariant.1 experiencesData).trans rfl

/-- Counterexample to claim C4 as stated: the Projects page and the
Timeline page render five entries each yet contain zero divider
nodes, not four; entries are separated by card boundaries only, and
no divider follows any entry. -/
theorem pages_divider_counterexample :
    dividerCount (renderProjectsPage projectsData) = 0 ∧ projectsData.length = 5 ∧
      dividerCount (renderTimelinePage timelineData) = 0 ∧ timelineData.length = 5 :=
  ⟨rfl, rfl, rfl, rfl⟩

/-- Claim C4 (corrected): on the Projects and Timeline pages the
entries appear in declared array order and each entry carries its own
impact-metric tiles in declared order, but no divider is emitted at
all: the divider count of both pages is zero for every entry
sequence, not entries minus one. -/
theorem pages_order_no_dividers :
    (∀ ps : List Project, dividerCount (renderProjectsPage ps) = 0 ∧
      cardTitles (renderProjectsPage ps) = ps.map Project.title) ∧
    (∀ p : Project, tileTriples (renderProjectCard p) =
      p.impact.map (fun m => (m.metric, m.value, m.icon))) ∧
    (∀ ts : List TimelineEntry, dividerCount (renderTimelinePage ts) = 0 ∧
      cardTitles (renderTimelinePage ts) = ts.map TimelineEntry.title) ∧
    (∀ t : TimelineEntry, tileTriples (renderTimelineCard t) =
      t.impact.map (fun m => (m.metric, m.value, m.icon))) :=
  ⟨fun ps => ⟨dividerCount_renderProjectsPage ps, cardTitles_renderProjectsPage ps⟩,
   tileTriples_renderProjectCard,
   fun ts => ⟨dividerCount_renderTimelinePage ts, cardTitles_renderTimelinePage ts⟩,
   tileTriples_renderTimelineCard⟩

/-- Witness for the C4 theorem at the static page data. -/
theorem pages_order_no_dividers_witness :
    dividerCount (renderProjectsPage projectsData) = 0 ∧
      cardTitles (renderTimelinePage timelineData) = timelineData.map TimelineEntry.title :=
  ⟨(pages_order_no_dividers.1 projectsData).1,
   (pages_order_no_dividers.2.2.1 timelineData).2⟩

/-- Counterexample to claim C5 as stated: the route table maps the
unrecognized path /about to no page at all rather than defaulting to
the profile page, and the timeline page, though assemblable, is
reachable from no path. -/
theorem route_counterexample :
    route "/about" = none ∧ route "/microsoft-timeline" = none ∧
      PageKey.timeline ∈ assemblablePages :=
  ⟨rfl, rfl, by simp [assemblablePages]⟩

/-- Claim C5 (corrected): the router exposes exactly two of the three
assemblable page keys: the root path maps to the profile page, the
microsoft-projects path maps to the projects page, every other path
maps to no page, and no path maps to the timeline page. -/
theorem route_spec (path : String) :
    (route path = some PageKey.profile ↔ path = "/") ∧
    (route path = some PageKey.projects ↔ path = "/microsoft-projects") ∧
    route path ≠ some PageKey.timeline := by
  unfold route
  by_cases h1 : path = "/"
  · simp [h1]
  · by_cases h2 : path = "/microsoft-projects"
    · simp [h1, h2]
    · simp [h1, h2]

/-- Witness for the C5 theorem at the root path. -/
theorem route_spec_witness : route "/" = some PageKey.profile :=
  (route_spec "/").1.mpr rfl

/-- Claim C6 (confirmed): for every input skill sequence the groups
appear in the declared category order Frontend, Backend, Cloud, Data:
the key order of skillCategories and the group header order of the
rendered card both equal the declared list, independent of the
insertion order of the input skills. -/
theorem group_order_declared (skills : List Skill) :
    (skillCategories skills).map Prod.fst = declaredCategories ∧
      headerLabels (renderSkillsCard skills) = declaredCategories :=
  ⟨rfl, headerLabels_renderSkillsCard skills⟩

/-- Witness for the C6 theorem at an input whose insertion order
starts with a Data skill: the header order is still the declared
one. -/
theorem group_order_declared_witness :
    headerLabels (renderSkillsCard
        [⟨"Azure Synapse", Category.data⟩, ⟨"React.js", Category.frontend⟩]) =
      declaredCategories :=
  (group_order_declared [⟨"Azure Synapse", Category.data⟩, ⟨"React.js", Category.frontend⟩]).2

/-- Claim C7 (confirmed): the concatenation of the grouped output
items, in group order then item order, is a permutation of the input
containing every input skill exactly once; each group is a sublist of
the input, so skills sharing a category keep their input relative
order; and each group holds exactly the input skills whose category
label is the group key. -/
theorem grouping_partition (skills : List Skill) :
    ((skillCategories skills).flatMap Prod.snd).Perm skills ∧
    (∀ pr ∈ skillCategories skills, pr.2.Sublist skills) ∧
    (∀ pr ∈ skillCategories skills, pr.2 = skills.filter (fun s => s.category.label = pr.1)) :=
  ⟨flatMap_skillCategories_perm skills, snd_skillCategories_sublist skills,
   snd_skillCategories_eq_filter_label skills⟩

/-- Witness for the C7 theorem at the static skill data. -/
theorem grouping_partition_witness :
    ((skillCategories skillsData).flatMap Prod.snd).Perm skillsData :=
  (grouping_partition skillsData).1

/-- Claim C8 (confirmed): a project or timeline entry whose impact
sequence is empty is a valid entry: it renders with zero metric tiles
and no failure, and its title, achievements and technologies render
unchanged. -/
theorem empty_impact_valid (p : Project) (t : TimelineEntry)
    (hp : p.impact = []) (ht : t.impact = []) :
    tileTriples (renderProjectCard p) = [] ∧
    cardTitles (renderProjectCard p) = [p.title] ∧
    achievementTexts (renderProjectCard p) = p.achievements ∧
    chipTexts (renderProjectCard p) = p.technologies ∧
    tileTriples (renderTimelineCard t) = [] ∧
    cardTitles (renderTimelineCard t) = [t.title] ∧
    achievementTexts (renderTimelineCard t) = t.achievements ∧
    chipTexts (renderTimelineCard t) = t.technologies := by
  refine ⟨?_, cardTitles_renderProjectCard p, achievementTexts_renderProjectCard p,
    chipTexts_renderProjectCard p, ?_, cardTitles_renderTimelineCard t,
    achievementTexts_renderTimelineCard t, chipTexts_renderTimelineCard t⟩
  · rw [tileTriples_renderProjectCard, hp]; rfl
  · rw [tileTriples_renderTimelineCard, ht]; rfl

/-- Witness for the C8 theorem at the Microsoft Personnel Systems
entries, whose impact arrays are empty in the source. -/
theorem empty_impact_valid_witness :
    tileTriples (renderProjectCard personnelProject) = [] ∧
      tileTriples (renderTimelineCard personnelTimelineEntry) = [] :=
  ⟨(empty_impact_valid personnelProject personnelTimelineEntry rfl rfl).1,
   (empty_impact_valid personnelProject personnelTimelineEntry rfl rfl).2.2.2.2.1⟩

/-- Claim C9 (confirmed): page assembly is a pure function of the
static records: assembling any page twice from equal inputs yields
structurally equal view-models; the embedding takes no other input,
so no randomness, environment or network can influence the
result. -/
theorem assembly_deterministic (s1 s2 : List Skill) (e1 e2 : List Experience)
    (ps1 ps2 : List Project) (ts1 ts2 : List TimelineEntry)
    (hs : s1 = s2) (he : e1 = e2) (hp : ps1 = ps2) (ht : ts1 = ts2) :
    assembleProfile s1 e1 = assembleProfile s2 e2 ∧
    renderProjectsPage ps1 = renderProjectsPage ps2 ∧
    renderTimelinePage ts1 = renderTimelinePage ts2 := by
  subst hs
  subst he
  subst hp
  subst ht
  exact ⟨rfl, rfl, rfl⟩

/-- Witness for the C9 theorem at the static record data. -/
theorem assembly_deterministic_witness :
    assembleProfile skillsData experiencesData = assembleProfile skillsData experiencesData ∧
      renderProjectsPage projectsData = renderProjectsPage projectsData ∧
      renderTimelinePage timelineData = renderTimelinePage timelineData :=
  assembly_deterministic skillsData skillsData experiencesData experiencesData
    projectsData projectsData timelineData timelineData rfl rfl rfl rfl

/-- Claim C10 (confirmed): getCategoryIcon is total over all strings:
every category string maps to one of the four icons, and every string
outside the four known categories maps to the Code icon through the
implicit default branch, never failing. -/
theorem getCategoryIcon_total (c : String) :
    (getCategoryIcon c = IconTag.web ∨ getCategoryIcon c = IconTag.code ∨
      getCategoryIcon c = IconTag.cloudIcon ∨ getCategoryIcon c = IconTag.storage) ∧
    (c ∉ declaredCategories → getCategoryIcon c = IconTag.code) := by
  constructor
  · unfold getCategoryIcon
    split_ifs <;> simp
  · intro h
    simp only [declaredCategories, List.mem_cons, List.not_mem_nil, or_false] at h
    push_neg at h
    obtain ⟨n1, n2, n3, n4⟩ := h
    simp [getCategoryIcon, n1, n2, n3, n4]

/-- Witness for the C10 theorem at the concrete out-of-table string
Mobile. -/
theorem getCategoryIcon_total_witness :
    getCategoryIcon "Mobile" = IconTag.code :=
  (getCategoryIcon_total "Mobile").2 (by decide)

end Site

